import Mathlib

/-!
Verification of the model-source and initialization-option layer of
fastembed-rs (`src/text_embedding/init.rs`).

The Rust code is embedded shallowly: each struct/enum becomes a Lean
structure/inductive, each method a Lean function.  External opaque types
(`ort::ExecutionProviderDispatch`, `TokenizerFiles`, `Pooling`, `OutputKey`,
`std::path::PathBuf`) are abstracted as tagged value types with decidable
equality, which is all the configuration layer observes of them.
-/

namespace Fastembed

/-- Opaque execution provider descriptor (external type
`ort::execution_providers::ExecutionProviderDispatch`), abstracted as a
tagged identifier; the configuration layer only stores and compares these. -/
structure ExecutionProviderDispatch where
  id : Nat
deriving DecidableEq, Repr

/-- Opaque tokenizer artifact bundle (`crate::common::TokenizerFiles`, declared
outside the visible slice); the descriptor forwards it unchanged, so it is
abstracted as a tagged value. -/
structure TokenizerFiles where
  id : Nat
deriving DecidableEq, Repr

/-- Opaque pooling strategy (`crate::pooling::Pooling`, declared outside the
visible slice), abstracted as a tagged value. -/
structure Pooling where
  id : Nat
deriving DecidableEq, Repr

/-- Opaque output-tensor key (`crate::OutputKey`, declared outside the visible
slice), abstracted as a tagged value. -/
structure OutputKey where
  id : Nat
deriving DecidableEq, Repr

/-- Modelled from the spec: the Quantization Mode (`crate::QuantizationMode`,
declared outside the visible slice) is "the numeric precision/packing scheme"
with a distinguished "none" mode; the visible slice uses only
`QuantizationMode::None`, other modes are abstracted as tagged values. -/
inductive QuantizationMode where
  | None : QuantizationMode
  | Mode (m : Nat) : QuantizationMode
deriving DecidableEq, Repr

/-- Filesystem path (`std::path::PathBuf`), abstracted as its string of
components; the configuration layer performs no I/O on it. -/
structure PathBuf where
  path : String
deriving DecidableEq, Repr

/-- A borrowed path (`&std::path::Path`); at the value level it carries the
same data as `PathBuf`. -/
abbrev Path := PathBuf

/-- Rust `Path::to_path_buf`: produces an owned copy of the borrowed path. -/
def PathBuf.to_path_buf (p : Path) : PathBuf := p

/-- Raw ONNX graph bytes (`Vec<u8>`), as a list of byte values. -/
abbrev Bytes := List Nat

/-- Modelled from the spec: `DEFAULT_MAX_LENGTH` (declared in
`super`, outside the visible slice) is "a single fixed global constant"
default for the user-defined path; the spec's scenario in section 8 uses 512. -/
def DEFAULT_MAX_LENGTH : Nat := 512

/-- Modelled from the spec: the catalog of named model families
(`crate::EmbeddingModel`, declared outside the visible slice), abstracted as
a tagged family identifier. -/
inductive EmbeddingModel where
  | family (id : Nat) : EmbeddingModel
deriving DecidableEq, Repr

/-- The `HasMaxLength` capability (`crate::init::HasMaxLength`): associates a
compile-time default max length with a model-family marker type. -/
class HasMaxLength (α : Type) where
  MAX_LENGTH : Nat

/-- `impl HasMaxLength for EmbeddingModel` in the visible slice:
`const MAX_LENGTH: usize = DEFAULT_MAX_LENGTH;`. -/
instance : HasMaxLength EmbeddingModel where
  MAX_LENGTH := DEFAULT_MAX_LENGTH

/-- Modelled from the spec: Catalog Initialization Options
(`crate::init::InitOptionsWithLength<M>`, declared outside the visible
slice): "{ execution_providers, max_length }, parameterized by a
model-family marker that supplies the family's default max length". -/
structure InitOptionsWithLength (M : Type) where
  execution_providers : List ExecutionProviderDispatch
  max_length : Nat
deriving DecidableEq, Repr

/-- Modelled from the spec: the catalog options builder entry point:
"`new()` yields execution_providers empty and max_length equal to the model
family's declared default". -/
def InitOptionsWithLength.new (M : Type) [HasMaxLength M] : InitOptionsWithLength M :=
  { execution_providers := [], max_length := @HasMaxLength.MAX_LENGTH M _ }

/-- `pub type TextInitOptions = InitOptionsWithLength<EmbeddingModel>;`. -/
abbrev TextInitOptions := InitOptionsWithLength EmbeddingModel

/-- `struct InitOptionsUserDefined` with public fields
`execution_providers: Vec<ExecutionProviderDispatch>` and
`max_length: usize`. -/
structure InitOptionsUserDefined where
  execution_providers : List ExecutionProviderDispatch
  max_length : Nat
deriving DecidableEq, Repr

/-- `impl Default for InitOptionsUserDefined`: empty providers,
`max_length: DEFAULT_MAX_LENGTH`. -/
def InitOptionsUserDefined.default : InitOptionsUserDefined :=
  { execution_providers := [], max_length := DEFAULT_MAX_LENGTH }

/-- `InitOptionsUserDefined::new`: `Self { ..Default::default() }`. -/
def InitOptionsUserDefined.new : InitOptionsUserDefined :=
  InitOptionsUserDefined.default

/-- `InitOptionsUserDefined::with_execution_providers`: consuming builder
mutator overwriting the provider list. -/
def InitOptionsUserDefined.with_execution_providers
    (self : InitOptionsUserDefined)
    (execution_providers : List ExecutionProviderDispatch) :
    InitOptionsUserDefined :=
  { self with execution_providers := execution_providers }

/-- `InitOptionsUserDefined::with_max_length`: consuming builder mutator
overwriting `max_length`. -/
def InitOptionsUserDefined.with_max_length
    (self : InitOptionsUserDefined) (max_length : Nat) : InitOptionsUserDefined :=
  { self with max_length := max_length }

/-- `impl From<TextInitOptions> for InitOptionsUserDefined`: copies
`execution_providers` and `max_length` field for field. -/
def InitOptionsUserDefined.fromTextInitOptions
    (options : TextInitOptions) : InitOptionsUserDefined :=
  { execution_providers := options.execution_providers
    max_length := options.max_length }

/-- `enum OnnxSource`: `Memory(Vec<u8>)` or `File(PathBuf)`. -/
inductive OnnxSource where
  | Memory (bytes : Bytes) : OnnxSource
  | File (path : PathBuf) : OnnxSource
deriving DecidableEq, Repr

/-- `impl From<Vec<u8>> for OnnxSource`: `OnnxSource::Memory(bytes)`. -/
def OnnxSource.fromBytes (bytes : Bytes) : OnnxSource :=
  OnnxSource.Memory bytes

/-- `impl From<std::path::PathBuf> for OnnxSource`: `OnnxSource::File(path)`. -/
def OnnxSource.fromPathBuf (path : PathBuf) : OnnxSource :=
  OnnxSource.File path

/-- `impl From<&std::path::Path> for OnnxSource`:
`OnnxSource::File(path.to_path_buf())`. -/
def OnnxSource.fromPath (path : Path) : OnnxSource :=
  OnnxSource.File path.to_path_buf

/-- The derived `Clone` of `OnnxSource`: rebuilds the active variant from a
copy of its payload (cloning a `Vec` or `PathBuf` reproduces its value). -/
def OnnxSource.clone : OnnxSource → OnnxSource
  | OnnxSource.Memory bytes => OnnxSource.Memory bytes
  | OnnxSource.File path => OnnxSource.File path

/-- The derived structural equality of `OnnxSource`: same variant and equal
payloads. -/
def OnnxSource.beq : OnnxSource → OnnxSource → Bool
  | OnnxSource.Memory b1, OnnxSource.Memory b2 => b1 = b2
  | OnnxSource.File p1, OnnxSource.File p2 => p1 = p2
  | _, _ => false

/-- `struct UserDefinedEmbeddingModel`: onnx source, tokenizer bundle,
optional pooling override, quantization mode, optional output key. -/
structure UserDefinedEmbeddingModel where
  onnx_source : OnnxSource
  tokenizer_files : TokenizerFiles
  pooling : Option Pooling
  quantization : QuantizationMode
  output_key : Option OutputKey
deriving DecidableEq, Repr

/-- `UserDefinedEmbeddingModel::new(onnx_source, tokenizer_files)`: the Rust
signature takes `impl Into<OnnxSource>` and applies `.into()`; at call sites
that conversion is one of `OnnxSource.fromBytes`, `OnnxSource.fromPathBuf`
or `OnnxSource.fromPath`, so here `new` receives the converted source. -/
def UserDefinedEmbeddingModel.new
    (onnx_source : OnnxSource) (tokenizer_files : TokenizerFiles) :
    UserDefinedEmbeddingModel :=
  { onnx_source := onnx_source
    tokenizer_files := tokenizer_files
    quantization := QuantizationMode.None
    pooling := none
    output_key := none }

/-- `UserDefinedEmbeddingModel::with_quantization`: consuming builder mutator
overwriting `quantization`. -/
def UserDefinedEmbeddingModel.with_quantization
    (self : UserDefinedEmbeddingModel) (quantization : QuantizationMode) :
    UserDefinedEmbeddingModel :=
  { self with quantization := quantization }

/-- `UserDefinedEmbeddingModel::with_pooling`: consuming builder mutator
setting `pooling` to `Some(pooling)`. -/
def UserDefinedEmbeddingModel.with_pooling
    (self : UserDefinedEmbeddingModel) (pooling : Pooling) :
    UserDefinedEmbeddingModel :=
  { self with pooling := some pooling }

/-- One step of a descriptor builder chain: a call to `with_quantization`
or to `with_pooling`. -/
inductive DescStep where
  | quant (q : QuantizationMode) : DescStep
  | pool (p : Pooling) : DescStep
deriving DecidableEq, Repr

/-- Applies a chain of descriptor builder calls in order. -/
def applyDescSteps (d : UserDefinedEmbeddingModel) : List DescStep → UserDefinedEmbeddingModel
  | [] => d
  | DescStep.quant q :: rest => applyDescSteps (d.with_quantization q) rest
  | DescStep.pool p :: rest => applyDescSteps (d.with_pooling p) rest

/-- Neither `with_quantization` nor `with_pooling` touches `output_key`, so a
whole chain leaves it unchanged. -/
theorem applyDescSteps_output_key (steps : List DescStep)
    (d : UserDefinedEmbeddingModel) :
    (applyDescSteps d steps).output_key = d.output_key := by
  induction steps generalizing d with
  | nil => rfl
  | cons step rest ih =>
    cases step with
    | quant q => exact ih (d.with_quantization q)
    | pool p => exact ih (d.with_pooling p)

end Fastembed

namespace Fastembed

/-- C1: converting catalog options (`TextInitOptions`) into user-defined
options via `From` is total (a total Lean function) and preserves both
shared fields exactly, for every input including empty provider lists and
`max_length = 1`. -/
theorem fromTextInitOptions_preserves_fields (options : TextInitOptions) :
    (InitOptionsUserDefined.fromTextInitOptions options).execution_providers
        = options.execution_providers ∧
    (InitOptionsUserDefined.fromTextInitOptions options).max_length
        = options.max_length :=
  ⟨rfl, rfl⟩

/-- C2: converting a byte buffer into a model source always yields the
in-memory variant holding exactly those bytes, never the on-disk variant. -/
theorem fromBytes_is_memory (b : Bytes) :
    OnnxSource.fromBytes b = OnnxSource.Memory b ∧
    ∀ p : PathBuf, OnnxSource.fromBytes b ≠ OnnxSource.File p :=
  ⟨rfl, fun _ h => OnnxSource.noConfusion h⟩

/-- C3: converting a path into a model source, by value (`From<PathBuf>`) or
by reference (`From<&Path>`), yields the on-disk variant holding exactly that
path, and both entry points agree on equal paths. -/
theorem path_conversions_agree (p : PathBuf) :
    OnnxSource.fromPathBuf p = OnnxSource.File p ∧
    OnnxSource.fromPath p = OnnxSource.File p ∧
    OnnxSource.fromPathBuf p = OnnxSource.fromPath p :=
  ⟨rfl, rfl, rfl⟩

/-- C4: `UserDefinedEmbeddingModel::new` stores the converted source and the
given tokenizer bundle, and sets quantization to `None`, pooling to `None`
and output key to `None`; in particular building from the in-memory buffer
`[0,1,2,3]` gives `onnx_source = Memory [0,1,2,3]` with those defaults. -/
theorem userDefinedEmbeddingModel_new_fields
    (s : OnnxSource) (tf : TokenizerFiles) :
    (UserDefinedEmbeddingModel.new s tf).onnx_source = s ∧
    (UserDefinedEmbeddingModel.new s tf).tokenizer_files = tf ∧
    (UserDefinedEmbeddingModel.new s tf).quantization = QuantizationMode.None ∧
    (UserDefinedEmbeddingModel.new s tf).pooling = none ∧
    (UserDefinedEmbeddingModel.new s tf).output_key = none ∧
    (UserDefinedEmbeddingModel.new
        (OnnxSource.fromBytes [0, 1, 2, 3]) (TokenizerFiles.mk 0)).onnx_source
      = OnnxSource.Memory [0, 1, 2, 3] :=
  ⟨rfl, rfl, rfl, rfl, rfl, rfl⟩

/-- C5: `InitOptionsUserDefined::new()` defaults `max_length` to the global
`DEFAULT_MAX_LENGTH` with an empty provider list; catalog options `new()`
defaults `max_length` to the family's declared `MAX_LENGTH` with an empty
provider list. -/
theorem new_options_defaults :
    InitOptionsUserDefined.new.max_length = DEFAULT_MAX_LENGTH ∧
    InitOptionsUserDefined.new.execution_providers = [] ∧
    (InitOptionsWithLength.new EmbeddingModel).max_length
      = @HasMaxLength.MAX_LENGTH EmbeddingModel _ ∧
    (InitOptionsWithLength.new EmbeddingModel).execution_providers = [] :=
  ⟨rfl, rfl, rfl, rfl⟩

/-- C6: builder mutators on disjoint fields commute: `with_max_length` then
`with_execution_providers` equals the reverse order, and
`with_quantization`/`with_pooling` in either order give a descriptor with
the requested quantization and `Some` of the requested pooling. -/
theorem disjoint_mutators_commute
    (o : InitOptionsUserDefined) (l : List ExecutionProviderDispatch) (n : Nat)
    (d : UserDefinedEmbeddingModel) (Q : QuantizationMode) (P : Pooling) :
    (o.with_max_length n).with_execution_providers l
      = (o.with_execution_providers l).with_max_length n ∧
    ((d.with_quantization Q).with_pooling P).quantization = Q ∧
    ((d.with_quantization Q).with_pooling P).pooling = some P ∧
    ((d.with_pooling P).with_quantization Q).quantization = Q ∧
    ((d.with_pooling P).with_quantization Q).pooling = some P ∧
    (d.with_quantization Q).with_pooling P = (d.with_pooling P).with_quantization Q :=
  ⟨rfl, rfl, rfl, rfl, rfl, rfl⟩

/-- C7: options construction is total and never coerces `max_length`: for
every `n`, including 0, `with_max_length n` stores exactly `n`. -/
theorem with_max_length_propagates_unchanged
    (o : InitOptionsUserDefined) (n : Nat) :
    (o.with_max_length n).max_length = n ∧
    (o.with_max_length 0).max_length = 0 :=
  ⟨rfl, rfl⟩

/-- C8: `OnnxSource` equality and cloning are structural value semantics:
cloning reproduces the value, the derived equality on matching variants
holds exactly when payloads are equal, and the two variants are never
equal. -/
theorem onnxSource_value_semantics
    (s : OnnxSource) (b b1 b2 : Bytes) (p p1 p2 : PathBuf) :
    s.clone = s ∧
    (OnnxSource.beq (OnnxSource.Memory b1) (OnnxSource.Memory b2) = true ↔ b1 = b2) ∧
    (OnnxSource.beq (OnnxSource.File p1) (OnnxSource.File p2) = true ↔ p1 = p2) ∧
    OnnxSource.beq (OnnxSource.Memory b) (OnnxSource.File p) = false ∧
    OnnxSource.Memory b ≠ OnnxSource.File p := by
  refine ⟨?_, ?_, ?_, rfl, fun h => OnnxSource.noConfusion h⟩
  · cases s <;> rfl
  · simp [OnnxSource.beq]
  · simp [OnnxSource.beq]

/-- C9: the family default and the global default coincide:
`EmbeddingModel`'s `MAX_LENGTH` equals `DEFAULT_MAX_LENGTH`, so converting a
default-constructed catalog options value yields exactly
`InitOptionsUserDefined::default()`. -/
theorem family_and_global_defaults_coincide :
    (@HasMaxLength.MAX_LENGTH EmbeddingModel _) = DEFAULT_MAX_LENGTH ∧
    InitOptionsUserDefined.fromTextInitOptions (InitOptionsWithLength.new EmbeddingModel)
      = InitOptionsUserDefined.default :=
  ⟨rfl, rfl⟩

/-- C10: each builder mutator changes only its own field:
`with_quantization` and `with_pooling` leave every other descriptor field
unchanged, `with_execution_providers` and `with_max_length` leave the other
options field unchanged, and no descriptor mutator touches `output_key`, so
any chain of `with_quantization`/`with_pooling` calls after `new` leaves
`output_key = none`. -/
theorem mutators_frame_conditions
    (d : UserDefinedEmbeddingModel) (Q : QuantizationMode) (P : Pooling)
    (o : InitOptionsUserDefined) (l : List ExecutionProviderDispatch) (n : Nat)
    (s : OnnxSource) (tf : TokenizerFiles) (steps : List DescStep) :
    (d.with_quantization Q).onnx_source = d.onnx_source ∧
    (d.with_quantization Q).tokenizer_files = d.tokenizer_files ∧
    (d.with_quantization Q).pooling = d.pooling ∧
    (d.with_quantization Q).output_key = d.output_key ∧
    (d.with_quantization Q).quantization = Q ∧
    (d.with_pooling P).onnx_source = d.onnx_source ∧
    (d.with_pooling P).tokenizer_files = d.tokenizer_files ∧
    (d.with_pooling P).quantization = d.quantization ∧
    (d.with_pooling P).output_key = d.output_key ∧
    (d.with_pooling P).pooling = some P ∧
    (o.with_execution_providers l).max_length = o.max_length ∧
    (o.with_max_length n).execution_providers = o.execution_providers ∧
    (applyDescSteps (UserDefinedEmbeddingModel.new s tf) steps).output_key = none :=
  ⟨rfl, rfl, rfl, rfl, rfl, rfl, rfl, rfl, rfl, rfl, rfl, rfl,
    applyDescSteps_output_key steps (UserDefinedEmbeddingModel.new s tf)⟩

end Fastembed
